import Mathlib

/-!
Shallow embedding of the dataset-normalization and scoring pipeline of
the Benchmark_Genomics repository
(genomics_benchmark/data/enhancer_processor.py,
 genomics_benchmark/data/reference_genome.py,
 genomics_benchmark/data/base_dataset.py,
 genomics_benchmark/data/dataset_config.py).

Tables are modelled as data frames whose rows are association lists from
column names to cell values; pandas missing values (NaN) are the cell
value `Value.na`.  Python scalar equality (where `True == 1` and
`NaN == x` is false) is modelled by `pyEq`.  Fallible operations
(pandas KeyError, explicit `raise ValueError`) return `Except`.
-/

namespace GenomicsBenchmark

/-- A cell value of a pandas table: integers, rationals (for float
columns such as scores), booleans, strings, or a missing value (NaN). -/
inductive Value where
  | int : Int → Value
  | rat : ℚ → Value
  | bool : Bool → Value
  | str : String → Value
  | na : Value
deriving DecidableEq, Repr

/-- True exactly on the missing value, as pandas isna. -/
def Value.isNa : Value → Bool
  | .na => true
  | _ => false

/-- Numeric view of a value, following Python where booleans are the
numbers 0 and 1; strings and missing values have no numeric view. -/
def Value.toQ : Value → Option ℚ
  | .int a => some (a : ℚ)
  | .rat q => some q
  | .bool b => some (if b then 1 else 0)
  | _ => none

/-- Python scalar equality: numbers compare by value across int, float
and bool (so True == 1), strings compare as strings, NaN compares
unequal to everything including itself. -/
def pyEq (a b : Value) : Bool :=
  match a, b with
  | .str s, .str t => s = t
  | _, _ =>
    match a.toQ, b.toQ with
    | some x, some y => x = y
    | _, _ => false

/-- Python comparison of a cell against an integer threshold, as used by
pandas boolean indexing: NaN and non-numeric values compare false. -/
def pyLeInt (v : Value) (t : Int) : Bool :=
  match v.toQ with
  | some x => x ≤ (t : ℚ)
  | none => false

/-- Pandas elementwise addition of two cells: int plus int stays int,
other numeric combinations become float, anything touching a missing or
non-numeric value is missing. -/
def Value.addV : Value → Value → Value
  | .int a, .int b => .int (a + b)
  | a, b =>
    match a.toQ, b.toQ with
    | some x, some y => .rat (x + y)
    | _, _ => .na

/-- Pandas elementwise subtraction, same conventions as `Value.addV`. -/
def Value.subV : Value → Value → Value
  | .int a, .int b => .int (a - b)
  | a, b =>
    match a.toQ, b.toQ with
    | some x, some y => .rat (x - y)
    | _, _ => .na

/-- Python floor division by 2 (the `// 2` of `_process_data`): floor
division on integers, floor of the quotient on floats, missing
otherwise. -/
def Value.fdiv2 : Value → Value
  | .int a => .int (a.fdiv 2)
  | .rat q => .rat ((⌊q / 2⌋ : Int) : ℚ)
  | _ => .na

/-- Python abs of a cell value; missing propagates. -/
def Value.absV : Value → Value
  | .int a => .int |a|
  | .rat q => .rat |q|
  | .bool b => .int (if b then 1 else 0)
  | _ => .na

/-- A table row: an association list from column names to cell values. -/
abbrev Row := List (String × Value)

/-- Reading a cell of a row by column name; a name the row does not
carry reads as missing (all callers guard presence through the column
list of the enclosing frame first, matching the pandas KeyError
discipline). -/
def getCell (r : Row) (c : String) : Value :=
  match r.lookup c with
  | some v => v
  | none => .na

/-- Assigning one cell of a row, as a pandas column assignment acts on
each row: replace the value in place when the column exists, append the
new column at the end otherwise. -/
def setCell (r : Row) (c : String) (v : Value) : Row :=
  if (r.lookup c).isSome then
    r.map (fun p => if p.1 = c then (c, v) else p)
  else
    r ++ [(c, v)]

/-- A pandas DataFrame: an ordered list of column names and a list of
rows. -/
structure DataFrame where
  cols : List String
  rows : List Row
deriving DecidableEq

/-- One entry of the `required_columns` map of a dataset configuration:
the Python values are either a list of column names or a single name
(the `label` group maps to the bare string Significant). -/
inductive ColSpec where
  | one : String → ColSpec
  | many : List String → ColSpec
deriving DecidableEq, Repr

/-- The fields of the merged `self.config` dictionary that the
processing stages of EnhancerProcessor read.  Optional fields model the
membership tests the code performs (`'distance_threshold' in
self.config`, `"additional_columns" in self.config`). -/
structure Config where
  column_mapping : List (String × String)
  required_columns : List (String × ColSpec)
  label_column : String
  distance_threshold : Option Int
  output_columns : List String
  additional_columns : Option (List String)
deriving DecidableEq, Repr

/-- The flattened required-column list built by the loop of
`_standardize_columns`: list-valued groups are extended into the
accumulator, scalar groups appended. -/
def requiredList (rc : List (String × ColSpec)) : List String :=
  rc.foldr
    (fun p acc =>
      match p.2 with
      | .many l => l ++ acc
      | .one s => s :: acc)
    []

/-- The `missing_columns` list of `_standardize_columns`: a required
canonical name is missing when it has no `column_mapping` entry or its
mapped source column is absent from the frame. -/
def missingColumns (cfg : Config) (df : DataFrame) : List String :=
  (requiredList cfg.required_columns).filter
    (fun c =>
      match cfg.column_mapping.lookup c with
      | none => true
      | some src => ¬ src ∈ df.cols)

/-- The `reverse_mapping` dict comprehension `{v: k for k, v in
column_mapping.items()}`: on duplicate source names the last canonical
name wins, which for an association list with first-match lookup means
reversing the pair list. -/
def reverseMapping (m : List (String × String)) : List (String × String) :=
  (m.map (fun p => (p.2, p.1))).reverse

/-- Renaming one column name through a rename map, as pandas
`DataFrame.rename`: names without an entry are kept. -/
def renameCol (m : List (String × String)) (c : String) : String :=
  match m.lookup c with
  | some k => k
  | none => c

/-- Renaming the columns of a frame through a rename map. -/
def renameDf (m : List (String × String)) (df : DataFrame) : DataFrame :=
  { cols := df.cols.map (renameCol m),
    rows := df.rows.map (fun r => r.map (fun p => (renameCol m p.1, p.2))) }

/-- EnhancerProcessor._standardize_columns: collect the required
canonical names, fail with the complete list of missing ones when any
required name cannot be resolved to a present source column, otherwise
rename the source columns to canonical names. -/
def standardizeColumns (cfg : Config) (df : DataFrame) : Except (List String) DataFrame :=
  let missing := missingColumns cfg df
  if missing = [] then
    .ok (renameDf (reverseMapping cfg.column_mapping) df)
  else
    .error missing

/-- The per-row effect of the three column assignments of
EnhancerProcessor._process_data: enhancer_center is the floor of
(start + end) / 2, distance is the absolute difference between the
center and gene_tss, and labels is 1 when the label cell compares equal
to 1 in the Python sense and 0 otherwise. -/
def processRow (cfg : Config) (r : Row) : Row :=
  let r1 := setCell r "enhancer_center" ((getCell r "start").addV (getCell r "end")).fdiv2
  let r2 := setCell r1 "distance" ((getCell r1 "enhancer_center").subV (getCell r1 "gene_tss")).absV
  setCell r2 "labels" (if pyEq (getCell r2 cfg.label_column) (.int 1) then .int 1 else .int 0)

/-- Appending a column name to the column list when it is new, as a
pandas column assignment does. -/
def addCol (cols : List String) (c : String) : List String :=
  if c ∈ cols then cols else cols ++ [c]

/-- EnhancerProcessor._process_data: the frame-level effect of the three
column assignments; reading a column absent from the frame is a pandas
KeyError. -/
def processData (cfg : Config) (df : DataFrame) : Except String DataFrame :=
  if "start" ∈ df.cols ∧ "end" ∈ df.cols ∧ "gene_tss" ∈ df.cols ∧
      cfg.label_column ∈ addCol (addCol df.cols "enhancer_center") "distance" then
    .ok { cols := addCol (addCol (addCol df.cols "enhancer_center") "distance") "labels",
          rows := df.rows.map (processRow cfg) }
  else
    .error "KeyError"

/-- The `columns_to_keep` of `_filter_data`: the output columns followed
by the additional columns when the configuration has them. -/
def columnsToKeep (cfg : Config) : List String :=
  match cfg.additional_columns with
  | some extra => cfg.output_columns ++ extra
  | none => cfg.output_columns

/-- The row predicate of the boolean indexing
`df[df['distance'] <= t]`. -/
def distLe (t : Int) (r : Row) : Bool :=
  pyLeInt (getCell r "distance") t

/-- Projecting a row to a column list, as `df[columns_to_keep]` acts on
each row. -/
def projectRow (keep : List String) (r : Row) : Row :=
  keep.map (fun c => (c, getCell r c))

/-- EnhancerProcessor._filter_data: when the distance_threshold argument
is not None filter by it, otherwise when the configuration carries a
distance_threshold filter by that, otherwise keep all rows; then project
to output_columns plus additional_columns.  Boolean indexing or
projection on an absent column is a pandas KeyError. -/
def filterData (cfg : Config) (df : DataFrame) (distance_threshold : Option Int) :
    Except String DataFrame :=
  let step1 : Except String DataFrame :=
    match distance_threshold with
    | some t =>
      if "distance" ∈ df.cols then
        .ok { df with rows := df.rows.filter (distLe t) }
      else
        .error "KeyError: distance"
    | none =>
      match cfg.distance_threshold with
      | some t =>
        if "distance" ∈ df.cols then
          .ok { df with rows := df.rows.filter (distLe t) }
        else
          .error "KeyError: distance"
      | none => .ok df
  match step1 with
  | .error e => .error e
  | .ok df2 =>
    let keep := columnsToKeep cfg
    if keep.all (fun c => c ∈ df2.cols) then
      .ok { cols := keep, rows := df2.rows.map (projectRow keep) }
    else
      .error "KeyError: projection"

/-- The `valid_mask` of calculate_metrics applied to one row: both the
score cell and the labels cell are non-missing. -/
def validRow (score_column : String) (r : Row) : Bool :=
  ¬ (getCell r score_column).isNa ∧ ¬ (getCell r "labels").isNa

/-- EnhancerProcessor.calculate_metrics, modelled up to the external
sklearn calls: validate that the score column and the labels column
exist, then return the (score, label) pairs of exactly the rows kept by
`valid_mask`, the series handed to roc_auc_score and
average_precision_score. -/
def calculateMetrics (df : DataFrame) (score_column : String) :
    Except String (List (Value × Value)) :=
  if ¬ score_column ∈ df.cols then
    .error ("Column not found in data: " ++ score_column)
  else if ¬ "labels" ∈ df.cols then
    .error "Labels column not found in data"
  else
    .ok ((df.rows.filter (validRow score_column)).map
      (fun r => (getCell r score_column, getCell r "labels")))

/-- The count of one label value over the whole frame, as
`value_counts` counts it: rows whose labels cell compares equal to the
value in the Python sense (missing cells compare equal to nothing and so
are dropped). -/
def countLabel (df : DataFrame) (v : Value) : Nat :=
  df.rows.countP (fun r => pyEq (getCell r "labels") v)

/-- The label-distribution summary of analyze_label_distribution:
total sample count, per-label counts, per-label percentages and the
positive-negative ratio. -/
structure Distribution where
  total_samples : Nat
  label_counts : Value → Nat
  label_percentages : Value → ℚ
  positive_negative_ratio : ℚ

/-- EnhancerProcessor.analyze_label_distribution: value_counts over the
labels column, total_samples = len(df), and
label_counts[1] / label_counts[0] when both classes appear in the
value_counts index, else 0. -/
def analyzeLabelDistribution (df : DataFrame) : Except String Distribution :=
  if ¬ "labels" ∈ df.cols then
    .error "Labels column not found in data"
  else
    .ok
      { total_samples := df.rows.length,
        label_counts := fun v => countLabel df v,
        label_percentages := fun v =>
          ((countLabel df v : ℚ) /
            ((df.rows.countP (fun r => ¬ (getCell r "labels").isNa)) : ℚ)) * 100,
        positive_negative_ratio :=
          if 0 < countLabel df (.int 0) ∧ 0 < countLabel df (.int 1) then
            (countLabel df (.int 1) : ℚ) / (countLabel df (.int 0) : ℚ)
          else 0 }

/-- A configuration value of the nested DATASET_CONFIG dictionary:
strings, integers, lists and dictionaries, as the Python literals in
dataset_config.py. -/
inductive CVal where
  | str : String → CVal
  | int : Int → CVal
  | list : List CVal → CVal
  | dict : List (String × CVal) → CVal

/-- A configuration dictionary: an association list of string keys to
configuration values with unique keys, as a Python dict literal. -/
abbrev CDict := List (String × CVal)

/-- The Python dict merge `{**a, **b}`: the keys of `a` first with the
value of `b` where `b` also binds the key, then the keys of `b` that `a`
does not bind, in order. -/
def dictMerge (a b : CDict) : CDict :=
  a.map
    (fun p =>
      match b.lookup p.1 with
      | some v => (p.1, v)
      | none => p)
  ++ b.filter (fun p => (a.lookup p.1).isNone)

/-- The reference_genome section of DATASET_CONFIG. -/
def referenceGenomeSection : CDict :=
  [("hg19", .dict
      [("fasta_url", .str "https://ftp.ebi.ac.uk/pub/databases/gencode/Gencode_human/release_19/GRCh37.p13.genome.fa.gz"),
       ("gtf_url", .str "https://ftp.ebi.ac.uk/pub/databases/gencode/Gencode_human/release_19/gencode.v19.annotation.gtf.gz")]),
   ("hg38", .dict
      [("fasta_url", .str "https://ftp.ebi.ac.uk/pub/databases/gencode/Gencode_human/release_47/GRCh38.p14.genome.fa.gz"),
       ("gtf_url", .str "https://ftp.ebi.ac.uk/pub/databases/gencode/Gencode_human/release_47/gencode.v47.annotation.gtf.gz")]),
   ("mm10", .dict
      [("fasta_url", .str "https://ftp.ebi.ac.uk/pub/databases/gencode/Gencode_mouse/release_M36/GRCm39.genome.fa.gz"),
       ("gtf_url", .str "https://ftp.ebi.ac.uk/pub/databases/gencode/Gencode_mouse/release_M36/gencode.vM36.annotation.gtf.gz")])]

/-- The task_config entry of the enhancer task. -/
def enhancerTaskConfig : CDict :=
  [("required_columns", .dict
      [("enhancer_loc", .list [.str "chr", .str "start", .str "end"]),
       ("gene_info", .list [.str "gene_name", .str "gene_tss"]),
       ("label", .str "Significant")]),
   ("distance_threshold", .int 100000000),
   ("output_columns", .list
      [.str "chr", .str "start", .str "end",
       .str "gene_name", .str "gene_tss",
       .str "distance",
       .str "ABC Score",
       .str "labels"])]

/-- The ABC_fulco dataset entry of the enhancer task. -/
def abcFulcoConfig : CDict :=
  [("name", .str "Fulco Enhancer Dataset"),
   ("description", .str "Fulco K562 enhancer dataset"),
   ("genome_version", .str "hg19"),
   ("data_url", .str "https://raw.githubusercontent.com/yueyueliu/Benchmark_Genomics/main/data/demo_online/enhancer/ABC_Fulco.xlsx"),
   ("file_format", .str "xlsx"),
   ("label_column", .str "Significant"),
   ("column_mapping", .dict
      [("chr", .str "chr"),
       ("start", .str "start"),
       ("end", .str "end"),
       ("gene_name", .str "Gene"),
       ("gene_tss", .str "Gene TSS"),
       ("Normalized HiC Contacts", .str "Normalized HiC Contacts"),
       ("H3K27ac (RPM)", .str "H3K27ac (RPM)"),
       ("Activity", .str "Activity"),
       ("ABC Score", .str "ABC Score"),
       ("Significant", .str "Significant")]),
   ("additional_columns", .list [])]

/-- The column_mapping shared by the Merged, Fulco, Gasperini and
Schraivogel dataset entries. -/
def e2gColumnMapping : CVal :=
  .dict
    [("chr", .str "chrom"),
     ("start", .str "chromStart"),
     ("end", .str "chromEnd"),
     ("gene_name", .str "measuredGeneSymbol"),
     ("gene_tss", .str "startTSS"),
     ("ABC Score", .str "ABCScoreDNaseOnlyAvgHicTrack2"),
     ("Significant", .str "Significant"),
     ("hic_contact", .str "3DContactAvgHicTrack2"),
     ("hic_contact_squared", .str "3DContactAvgHicTrack2_squared"),
     ("activity_enh", .str "activityEnhDNaseOnlyAvgHicTrack2_squared"),
     ("activity_prom", .str "activityPromDNaseOnlyAvgHicTrack2")]

/-- The Merged dataset entry of the enhancer task. -/
def mergedConfig : CDict :=
  [("name", .str "E2G Enhancer Dataset"),
   ("description", .str "E2G K562 enhancer dataset"),
   ("genome_version", .str "hg38"),
   ("data_url", .str "https://raw.githubusercontent.com/yueyueliu/Benchmark_Genomics/main/data/demo_online/enhancer/Merged.tsv"),
   ("file_format", .str "tsv"),
   ("label_column", .str "Regulated"),
   ("column_mapping", e2gColumnMapping),
   ("additional_columns", .list [.str "EffectSize"])]

/-- The Fulco dataset entry of the enhancer task. -/
def fulcoConfig : CDict :=
  [("name", .str "Fulco K562 Enhancer Dataset"),
   ("description", .str "Fulco K562 enhancer dataset in TSV format"),
   ("genome_version", .str "hg38"),
   ("data_url", .str "https://raw.githubusercontent.com/yueyueliu/Benchmark_Genomics/main/data/demo_online/enhancer/Fulco.tsv"),
   ("file_format", .str "tsv"),
   ("label_column", .str "Regulated"),
   ("column_mapping", e2gColumnMapping),
   ("additional_columns", .list [.str "EffectSize"])]

/-- The Gasperini dataset entry of the enhancer task. -/
def gasperiniConfig : CDict :=
  [("name", .str "Gasperini K562 Enhancer Dataset"),
   ("description", .str "Gasperini K562 enhancer dataset"),
   ("genome_version", .str "hg38"),
   ("data_url", .str "https://raw.githubusercontent.com/yueyueliu/Benchmark_Genomics/main/data/demo_online/enhancer/Gasperini.tsv"),
   ("file_format", .str "tsv"),
   ("label_column", .str "Regulated"),
   ("column_mapping", e2gColumnMapping),
   ("additional_columns", .list [.str "EffectSize"])]

/-- The Schraivogel dataset entry of the enhancer task. -/
def schraivogelConfig : CDict :=
  [("name", .str "Schraivogel K562 Enhancer Dataset"),
   ("description", .str "Schraivogel K562 enhancer dataset"),
   ("genome_version", .str "hg38"),
   ("data_url", .str "https://raw.githubusercontent.com/yueyueliu/Benchmark_Genomics/main/data/demo_online/enhancer/Schraivogel.tsv"),
   ("file_format", .str "tsv"),
   ("label_column", .str "Regulated"),
   ("column_mapping", e2gColumnMapping),
   ("additional_columns", .list [.str "EffectSize"])]

/-- The task_config entry of the eqtl task. -/
def eqtlTaskConfig : CDict :=
  [("required_columns", .dict
      [("gene_info", .list [.str "phenotype_id", .str "gene_name", .str "biotype"]),
       ("variant_info", .list [.str "variant_id", .str "pip", .str "af"]),
       ("effect_info", .list [.str "afc", .str "afc_se"])]),
   ("output_columns", .list
      [.str "phenotype_id", .str "gene_name", .str "biotype",
       .str "variant_id", .str "pip", .str "af",
       .str "afc", .str "afc_se",
       .str "labels"])]

/-- The Adipose_Subcutaneous dataset entry of the eqtl task. -/
def adiposeConfig : CDict :=
  [("name", .str "Adipose Subcutaneous eQTL Dataset"),
   ("description", .str "eQTL data from GTEx v10 for Adipose Subcutaneous tissue"),
   ("genome_version", .str "hg38"),
   ("data_url", .str "https://raw.githubusercontent.com/yueyueliu/Benchmark_Genomics/main/data/demo_online/eqtl/Adipose_Subcutaneous.v10.eQTLs.SuSiE_summary.parquet"),
   ("file_format", .str "parquet"),
   ("column_mapping", .dict
      [("phenotype_id", .str "phenotype_id"),
       ("gene_name", .str "gene_name"),
       ("biotype", .str "biotype"),
       ("variant_id", .str "variant_id"),
       ("pip", .str "pip"),
       ("af", .str "af"),
       ("cs_id", .str "cs_id"),
       ("cs_size", .str "cs_size"),
       ("afc", .str "afc"),
       ("afc_se", .str "afc_se")]),
   ("additional_columns", .list [])]

/-- The enhancer section of DATASET_CONFIG. -/
def enhancerSection : CDict :=
  [("task_config", .dict enhancerTaskConfig),
   ("ABC_fulco", .dict abcFulcoConfig),
   ("Merged", .dict mergedConfig),
   ("Fulco", .dict fulcoConfig),
   ("Gasperini", .dict gasperiniConfig),
   ("Schraivogel", .dict schraivogelConfig)]

/-- The eqtl section of DATASET_CONFIG. -/
def eqtlSection : CDict :=
  [("task_config", .dict eqtlTaskConfig),
   ("Adipose_Subcutaneous", .dict adiposeConfig)]

/-- The DATASET_CONFIG registry of dataset_config.py. -/
def DATASET_CONFIG : CDict :=
  [("reference_genome", .dict referenceGenomeSection),
   ("enhancer", .dict enhancerSection),
   ("eqtl", .dict eqtlSection)]

/-- reference_genome.get_dataset_config: reject an unknown task name;
with no dataset name return the task-level config; reject an unknown
dataset name; otherwise merge the task-level config with the
dataset-specific config, the dataset dict overriding.  Python KeyError
and TypeError paths (a task section without a task_config dict) are the
remaining error cases. -/
def get_dataset_config (task_name : String) (dataset_name : Option String) :
    Except String CDict :=
  match DATASET_CONFIG.lookup task_name with
  | none => .error ("Unknown task name: " ++ task_name)
  | some taskSection =>
    match taskSection with
    | .dict entries =>
      match dataset_name with
      | none =>
        match entries.lookup "task_config" with
        | some (.dict tc) => .ok tc
        | _ => .error "KeyError: task_config"
      | some ds =>
        match entries.lookup ds with
        | none => .error ("Unknown dataset name: " ++ ds)
        | some dsSection =>
          match entries.lookup "task_config", dsSection with
          | some (.dict tc), .dict dc => .ok (dictMerge tc dc)
          | _, _ => .error "KeyError: task_config"
    | _ => .error "TypeError"

/-- An observable side effect of BaseDataset construction: a directory
creation on disk or a download call of the fetch collaborator. -/
inductive Event where
  | mkdir : String → Event
  | fetch : String → Event
deriving DecidableEq, Repr

/-- BaseDataset.__init__ as a trace of side effects next to its result:
the cache directories are created first, then the configuration is
resolved; on success the downloader is constructed (which creates its
cache directory) and no download call happens in either case. -/
def baseDatasetInitTrace (task_name dataset_name : String) :
    List Event × Except String CDict :=
  match get_dataset_config task_name (some dataset_name) with
  | .error e => ([Event.mkdir "cache_dir"], .error e)
  | .ok cfg => ([Event.mkdir "cache_dir", Event.mkdir "downloader_cache_dir"], .ok cfg)

/-! Concrete descriptors and frames used to instantiate the claims. -/

/-- The example descriptor of the end-to-end scenario of the design
notes: the column mapping chr to chrom, start to chromStart, end to
chromEnd, gene_name to g, gene_tss to tss and Significant to sig, with
label column Significant. -/
def exampleConfig : Config :=
  { column_mapping :=
      [("chr", "chrom"), ("start", "chromStart"), ("end", "chromEnd"),
       ("gene_name", "g"), ("gene_tss", "tss"), ("Significant", "sig")],
    required_columns :=
      [("enhancer_loc", .many ["chr", "start", "end"]),
       ("gene_info", .many ["gene_name", "gene_tss"]),
       ("label", .one "Significant")],
    label_column := "Significant",
    distance_threshold := some 100000000,
    output_columns := ["chr", "start", "end", "gene_name", "gene_tss", "distance", "labels"],
    additional_columns := none }

/-- The raw example row of the scenario: chrom chr1, chromStart 100,
chromEnd 200, gene g at tss 140, sig 1. -/
def exampleRaw : DataFrame :=
  { cols := ["chrom", "chromStart", "chromEnd", "g", "tss", "sig"],
    rows := [[("chrom", .str "chr1"), ("chromStart", .int 100), ("chromEnd", .int 200),
              ("g", .str "X"), ("tss", .int 140), ("sig", .int 1)]] }

/-- The example row after column standardization. -/
def exampleStdRow : Row :=
  [("chr", .str "chr1"), ("start", .int 100), ("end", .int 200),
   ("gene_name", .str "X"), ("gene_tss", .int 140), ("Significant", .int 1)]

/-- The distance and labels cells the pipeline derives for the example
frame: standardize the columns, compute the features, read the two
cells of each row. -/
def exampleCells : Except String (List (Value × Value)) :=
  match standardizeColumns exampleConfig exampleRaw with
  | .error _ => .error "SchemaMismatch"
  | .ok d =>
    (processData exampleConfig d).map
      (fun d2 => d2.rows.map (fun r => (getCell r "distance", getCell r "labels")))

/-- A normalized frame whose single row has a missing raw label. -/
def naLabelDf : DataFrame :=
  { cols := ["start", "end", "gene_tss", "Significant"],
    rows := [[("start", .int 0), ("end", .int 2), ("gene_tss", .int 1), ("Significant", .na)]] }

/-- The row of `naLabelDf`. -/
def naLabelRow : Row :=
  [("start", .int 0), ("end", .int 2), ("gene_tss", .int 1), ("Significant", .na)]

/-- A normalized frame whose rows carry raw label cells of every flavor:
the integer 1, boolean true, a missing value, boolean false, a string
and the integer 2. -/
def mixedLabelDf : DataFrame :=
  { cols := ["start", "end", "gene_tss", "Significant"],
    rows :=
      [[("start", .int 0), ("end", .int 2), ("gene_tss", .int 1), ("Significant", .int 1)],
       [("start", .int 0), ("end", .int 2), ("gene_tss", .int 1), ("Significant", .bool true)],
       [("start", .int 0), ("end", .int 2), ("gene_tss", .int 1), ("Significant", .na)],
       [("start", .int 0), ("end", .int 2), ("gene_tss", .int 1), ("Significant", .bool false)],
       [("start", .int 0), ("end", .int 2), ("gene_tss", .int 1), ("Significant", .str "yes")],
       [("start", .int 0), ("end", .int 2), ("gene_tss", .int 1), ("Significant", .int 2)]] }

/-- The frame `mixedLabelDf` after feature computation, for the witness
instantiations. -/
def mixedLabelProcessed : DataFrame :=
  match processData exampleConfig mixedLabelDf with
  | .ok d => d
  | .error _ => { cols := [], rows := [] }

/-- A raw frame that carries only the chrom source column, so that five
of the six required canonical columns are unresolvable. -/
def chromOnlyDf : DataFrame :=
  { cols := ["chrom"], rows := [[("chrom", .str "chr1")]] }

/-- A descriptor with a configured distance_threshold of 100 whose
output columns are chr and distance. -/
def cfgThresh : Config :=
  { column_mapping := [], required_columns := [], label_column := "Significant",
    distance_threshold := some 100,
    output_columns := ["chr", "distance"], additional_columns := none }

/-- A feature frame with one row at distance 200. -/
def farRowDf : DataFrame :=
  { cols := ["chr", "distance"],
    rows := [[("chr", .str "chr1"), ("distance", .int 200)]] }

/-- A descriptor without a configured distance_threshold whose output
columns drop the distance column. -/
def cfgDropDistance : Config :=
  { column_mapping := [], required_columns := [], label_column := "Significant",
    distance_threshold := none,
    output_columns := ["chr"], additional_columns := none }

/-- A descriptor without a configured distance_threshold whose output
columns keep the distance column. -/
def cfgKeepDistance : Config :=
  { column_mapping := [], required_columns := [], label_column := "Significant",
    distance_threshold := none,
    output_columns := ["chr", "distance"], additional_columns := none }

/-- A feature frame with one row at distance 5. -/
def nearRowDf : DataFrame :=
  { cols := ["chr", "distance"],
    rows := [[("chr", .str "chr1"), ("distance", .int 5)]] }

/-- A result frame whose labels column holds only the class 1. -/
def onlyPosDf : DataFrame :=
  { cols := ["labels"],
    rows := [[("labels", .int 1)], [("labels", .int 1)]] }

/-- A result frame with scores and labels where one row misses the
score and one row misses the label. -/
def scoredDf : DataFrame :=
  { cols := ["ABC Score", "labels"],
    rows :=
      [[("ABC Score", .rat (9 / 10)), ("labels", .int 1)],
       [("ABC Score", .na), ("labels", .int 0)],
       [("ABC Score", .rat (1 / 10)), ("labels", .na)],
       [("ABC Score", .rat (2 / 10)), ("labels", .int 0)]] }

/-! Helper lemmas about association-list lookup, rows, projections and
dictionary merge. -/

theorem lookup_cons {β : Type} (k : String) (p : String × β) (tl : List (String × β)) :
    List.lookup k (p :: tl) = if k = p.1 then some p.2 else List.lookup k tl := by
  rcases p with ⟨a, b⟩
  by_cases h : k = a
  · simp [List.lookup, h]
  · have hb : (k == a) = false := by simp [h]
    simp [List.lookup, hb, h]

theorem lookup_append {β : Type} (a b : List (String × β)) (k : String) :
    List.lookup k (a ++ b) =
      match List.lookup k a with
      | some v => some v
      | none => List.lookup k b := by
  induction a with
  | nil => simp
  | cons p tl ih =>
    by_cases h : k = p.1
    · simp [lookup_cons, h]
    · simp [lookup_cons, h, ih]

theorem getCell_cons (p : String × Value) (tl : Row) (c : String) :
    getCell (p :: tl) c = if c = p.1 then p.2 else getCell tl c := by
  unfold getCell
  rw [lookup_cons]
  by_cases h : c = p.1 <;> simp [h]

theorem lookup_map_replace_ne {c d : String} (h : c ≠ d) (v : Value) (l : Row) :
    List.lookup d (l.map (fun p => if p.1 = c then (c, v) else p)) = List.lookup d l := by
  induction l with
  | nil => simp
  | cons p tl ih =>
    by_cases hp : p.1 = c
    · simp [hp, lookup_cons, (show ¬ d = c from fun hh => h hh.symm), ih]
    · simp [hp, lookup_cons, ih]

theorem lookup_setCell_self (r : Row) (c : String) (v : Value) :
    List.lookup c (setCell r c v) = some v := by
  unfold setCell
  by_cases hs : (List.lookup c r).isSome
  · simp only [hs, if_true]
    induction r with
    | nil => simp at hs
    | cons p tl ih =>
      by_cases hp : p.1 = c
      · simp [hp, lookup_cons]
      · simp only [List.map_cons, if_neg hp]
        rw [lookup_cons, if_neg (fun hh => hp hh.symm)]
        apply ih
        rw [lookup_cons, if_neg (fun hh => hp hh.symm)] at hs
        exact hs
  · rw [if_neg hs]
    have hn : List.lookup c r = none := by
      cases hl : List.lookup c r
      · rfl
      · rw [hl] at hs; simp at hs
    rw [lookup_append, hn]
    simp [lookup_cons]

theorem lookup_setCell_of_ne (r : Row) {c d : String} (h : c ≠ d) (v : Value) :
    List.lookup d (setCell r c v) = List.lookup d r := by
  unfold setCell
  by_cases hs : (List.lookup c r).isSome
  · simp only [hs, if_true]
    exact lookup_map_replace_ne h v r
  · rw [if_neg hs]
    rw [lookup_append]
    cases hl : List.lookup d r with
    | some w => simp
    | none => simp [lookup_cons, (show ¬ d = c from fun hh => h hh.symm)]

theorem getCell_setCell_self (r : Row) (c : String) (v : Value) :
    getCell (setCell r c v) c = v := by
  unfold getCell
  rw [lookup_setCell_self]

theorem getCell_setCell_of_ne (r : Row) {c d : String} (h : c ≠ d) (v : Value) :
    getCell (setCell r c v) d = getCell r d := by
  unfold getCell
  rw [lookup_setCell_of_ne r h v]

theorem getCell_projectRow (keep : List String) (r : Row) {c : String} (h : c ∈ keep) :
    getCell (projectRow keep r) c = getCell r c := by
  induction keep with
  | nil => cases h
  | cons k tl ih =>
    unfold projectRow at ih ⊢
    simp only [List.map_cons]
    rw [getCell_cons]
    by_cases hk : c = k
    · simp [hk]
    · rw [if_neg hk]
      have hm : c ∈ tl := by
        cases h with
        | head => exact absurd rfl hk
        | tail _ h2 => exact h2
      exact ih hm

theorem projectRow_idem (keep : List String) (r : Row) :
    projectRow keep (projectRow keep r) = projectRow keep r := by
  unfold projectRow
  apply List.map_congr_left
  intro c hc
  rw [show (fun c => (c, getCell r c)) = fun c => (c, getCell r c) from rfl]
  have := getCell_projectRow keep r hc
  unfold projectRow at this
  rw [this]

theorem distLe_projectRow {keep : List String} (h : "distance" ∈ keep) (t : Int) (r : Row) :
    distLe t (projectRow keep r) = distLe t r := by
  unfold distLe
  rw [getCell_projectRow keep r h]

theorem lookup_filter_isNone (a b : CDict) (k : String) (hk : (List.lookup k a).isNone) :
    List.lookup k (b.filter (fun p => (List.lookup p.1 a).isNone)) = List.lookup k b := by
  induction b with
  | nil => simp
  | cons p tl ih =>
    by_cases hp : k = p.1
    · subst hp
      simp [List.filter_cons, hk, lookup_cons]
    · cases hd : (List.lookup p.1 a).isNone
      · simp [List.filter_cons, hd, ih, lookup_cons, hp]
      · simp [List.filter_cons, hd, ih, lookup_cons, hp]

theorem lookup_map_override (a b : CDict) (k : String) :
    List.lookup k
        (a.map (fun p =>
          match List.lookup p.1 b with
          | some v => (p.1, v)
          | none => p)) =
      match List.lookup k a with
      | some v => some ((List.lookup k b).getD v)
      | none => none := by
  induction a with
  | nil => simp
  | cons p tl ih =>
    by_cases hp : k = p.1
    · subst hp
      cases hb : List.lookup p.1 b with
      | none => simp [lookup_cons, hb]
      | some w => simp [lookup_cons, hb]
    · cases hb : List.lookup p.1 b with
      | none =>
        simp only [List.map_cons, hb]
        rw [lookup_cons, if_neg hp, lookup_cons, if_neg hp]
        exact ih
      | some w =>
        simp only [List.map_cons, hb]
        rw [lookup_cons, if_neg hp, lookup_cons, if_neg hp]
        exact ih

/-- The lookup characterization of the Python dict merge `{**a, **b}`:
a key bound by the overlay dict resolves to the overlay value as a
whole, a key bound only by the base dict resolves to the base value. -/
theorem dictMerge_lookup (a b : CDict) (k : String) :
    List.lookup k (dictMerge a b) =
      match List.lookup k a with
      | some v => some ((List.lookup k b).getD v)
      | none => List.lookup k b := by
  unfold dictMerge
  rw [lookup_append, lookup_map_override]
  cases ha : List.lookup k a with
  | some v => simp
  | none =>
    simp only
    exact lookup_filter_isNone a b k (by rw [ha]; rfl)

/-! Cell-level characterization of the feature-computation step. -/

theorem processRow_center (cfg : Config) (r : Row) {a b : Int}
    (hs : getCell r "start" = .int a) (he : getCell r "end" = .int b) :
    getCell (processRow cfg r) "enhancer_center" = .int ((a + b).fdiv 2) := by
  unfold processRow
  rw [getCell_setCell_of_ne _ (show "labels" ≠ "enhancer_center" by decide) _]
  rw [getCell_setCell_of_ne _ (show "distance" ≠ "enhancer_center" by decide) _]
  rw [getCell_setCell_self, hs, he]
  rfl

theorem processRow_distance (cfg : Config) (r : Row) {a b g : Int}
    (hs : getCell r "start" = .int a) (he : getCell r "end" = .int b)
    (hg : getCell r "gene_tss" = .int g) :
    getCell (processRow cfg r) "distance" = .int |(a + b).fdiv 2 - g| := by
  unfold processRow
  rw [getCell_setCell_of_ne _ (show "labels" ≠ "distance" by decide) _]
  rw [getCell_setCell_self]
  rw [getCell_setCell_self]
  rw [getCell_setCell_of_ne _ (show "enhancer_center" ≠ "gene_tss" by decide) _]
  rw [hs, he, hg]
  rfl

theorem processRow_labels (cfg : Config) (r : Row)
    (h1 : cfg.label_column ≠ "enhancer_center") (h2 : cfg.label_column ≠ "distance") :
    getCell (processRow cfg r) "labels" =
      (if pyEq (getCell r cfg.label_column) (.int 1) then Value.int 1 else Value.int 0) := by
  unfold processRow
  rw [getCell_setCell_self]
  rw [getCell_setCell_of_ne _ (fun hh => h2 hh.symm) _]
  rw [getCell_setCell_of_ne _ (fun hh => h1 hh.symm) _]

theorem processRow_labels_cases (cfg : Config) (r : Row) :
    getCell (processRow cfg r) "labels" = .int 0 ∨
      getCell (processRow cfg r) "labels" = .int 1 := by
  unfold processRow
  rw [getCell_setCell_self]
  by_cases h : pyEq (getCell (setCell (setCell r "enhancer_center"
      ((getCell r "start").addV (getCell r "end")).fdiv2) "distance"
      ((getCell (setCell r "enhancer_center" ((getCell r "start").addV
        (getCell r "end")).fdiv2) "enhancer_center").subV
        (getCell (setCell r "enhancer_center" ((getCell r "start").addV
          (getCell r "end")).fdiv2) "gene_tss")).absV) cfg.label_column) (.int 1) = true
  · right; simp [h]
  · left; simp [h]

theorem processData_rows (cfg : Config) (df df2 : DataFrame)
    (h : processData cfg df = .ok df2) :
    df2.rows = df.rows.map (processRow cfg) := by
  unfold processData at h
  split at h
  · cases h
    rfl
  · exact Except.noConfusion h

/-! Claim theorems. -/

/-- C3: for rows with integer start, end and gene_tss cells the
feature-computation step sets enhancer_center to the floor of
(start + end) / 2 (integer floor division, which agrees with truncation
on the non-negative coordinate sums of genomic tables) and distance to
the absolute difference between the center and gene_tss; on the spec
example row (start 100, end 200, gene_tss 140, raw label 1) under the
example descriptor the derived cells are distance 10 and labels 1. -/
theorem C3_feature_formulas (cfg : Config) (r : Row) (a b g : Int)
    (hs : getCell r "start" = .int a) (he : getCell r "end" = .int b)
    (hg : getCell r "gene_tss" = .int g) :
    getCell (processRow cfg r) "enhancer_center" = .int ((a + b).fdiv 2) ∧
    getCell (processRow cfg r) "distance" = .int |(a + b).fdiv 2 - g| ∧
    exampleCells = .ok [(Value.int 10, Value.int 1)] := by
  refine ⟨processRow_center cfg r hs he, processRow_distance cfg r hs he hg, ?_⟩
  rfl

theorem C3_feature_formulas_witness :
    getCell (processRow exampleConfig exampleStdRow) "enhancer_center" =
        .int (((100 : Int) + 200).fdiv 2) ∧
    getCell (processRow exampleConfig exampleStdRow) "distance" =
        .int |((100 : Int) + 200).fdiv 2 - 140| ∧
    exampleCells = .ok [(Value.int 10, Value.int 1)] :=
  C3_feature_formulas exampleConfig exampleStdRow 100 200 140 (by decide) (by decide) (by decide)

/-- C1 counterexample: on a normalized frame whose single row has a
missing raw value in the label column, the label-derivation step
produces the labels cell 0, not a missing labels cell, refuting the
claim that missing raw labels propagate as missing labels. -/
theorem C1_missing_label_counterexample :
    (processData exampleConfig naLabelDf).map
        (fun d => d.rows.map (fun r => getCell r "labels")) = .ok [Value.int 0] ∧
    Value.int 0 ≠ Value.na := by
  exact ⟨rfl, by decide⟩

/-- C1 amended: the label-derivation step coerces a missing raw value in
the label column to the labels value 0 for that row; missing raw labels
are not propagated as missing labels. -/
theorem C1_missing_label_coerced (cfg : Config) (r : Row)
    (h1 : cfg.label_column ≠ "enhancer_center") (h2 : cfg.label_column ≠ "distance")
    (hna : getCell r cfg.label_column = .na) :
    getCell (processRow cfg r) "labels" = .int 0 := by
  rw [processRow_labels cfg r h1 h2, hna]
  simp [pyEq, Value.toQ]

theorem C1_missing_label_coerced_witness :
    getCell (processRow exampleConfig naLabelRow) "labels" = .int 0 :=
  C1_missing_label_coerced exampleConfig naLabelRow (by decide) (by decide) (by decide)

/-- C10: after feature computation every labels cell is exactly 0 or 1
and never missing; a row gets label 1 exactly when its raw label cell
compares equal to 1 in the Python sense, so boolean true maps to 1,
while a missing value, boolean false, any string, any other number map
to 0. -/
theorem C10_labels_invariant (cfg : Config) (df df2 : DataFrame)
    (hok : processData cfg df = .ok df2)
    (h1 : cfg.label_column ≠ "enhancer_center") (h2 : cfg.label_column ≠ "distance") :
    (∀ r ∈ df2.rows, getCell r "labels" = .int 0 ∨ getCell r "labels" = .int 1) ∧
    (∀ r ∈ df2.rows, (getCell r "labels").isNa = false) ∧
    (∀ r ∈ df.rows, getCell (processRow cfg r) "labels" = .int 1 ↔
        pyEq (getCell r cfg.label_column) (.int 1) = true) ∧
    pyEq (.bool true) (.int 1) = true ∧
    pyEq Value.na (.int 1) = false ∧
    pyEq (.bool false) (.int 1) = false ∧
    (∀ s, pyEq (.str s) (.int 1) = false) ∧
    (∀ n : Int, pyEq (.int n) (.int 1) = true ↔ n = 1) := by
  have hrows := processData_rows cfg df df2 hok
  refine ⟨?_, ?_, ?_, by decide, by decide, by decide, fun s => rfl, ?_⟩
  · intro r hr
    rw [hrows] at hr
    obtain ⟨r0, _, rfl⟩ := List.mem_map.mp hr
    exact processRow_labels_cases cfg r0
  · intro r hr
    rw [hrows] at hr
    obtain ⟨r0, _, rfl⟩ := List.mem_map.mp hr
    rcases processRow_labels_cases cfg r0 with h | h <;> rw [h] <;> rfl
  · intro r _
    rw [processRow_labels cfg r h1 h2]
    by_cases h : pyEq (getCell r cfg.label_column) (.int 1) = true
    · simp [h]
    · simp [h]
  · intro n
    simp only [pyEq, Value.toQ]
    constructor
    · intro h
      have : (n : ℚ) = 1 := by
        by_contra hne
        simp [hne] at h
      exact_mod_cast this
    · intro h
      subst h
      simp

theorem C10_labels_invariant_witness :
    (∀ r ∈ mixedLabelProcessed.rows,
        getCell r "labels" = .int 0 ∨ getCell r "labels" = .int 1) ∧
    (∀ r ∈ mixedLabelProcessed.rows, (getCell r "labels").isNa = false) ∧
    (∀ r ∈ mixedLabelDf.rows, getCell (processRow exampleConfig r) "labels" = .int 1 ↔
        pyEq (getCell r exampleConfig.label_column) (.int 1) = true) ∧
    pyEq (.bool true) (.int 1) = true ∧
    pyEq Value.na (.int 1) = false ∧
    pyEq (.bool false) (.int 1) = false ∧
    (∀ s, pyEq (.str s) (.int 1) = false) ∧
    (∀ n : Int, pyEq (.int n) (.int 1) = true ↔ n = 1) :=
  C10_labels_invariant exampleConfig mixedLabelDf mixedLabelProcessed rfl
    (by decide) (by decide)

/-- C4: when any canonical name required by required_columns has no
column_mapping entry or its mapped source column is absent from the raw
frame, normalization fails, and the error carries the complete list of
missing canonical columns: a name is in that list exactly when it is
required and unresolvable. -/
theorem C4_schema_mismatch_complete (cfg : Config) (df : DataFrame)
    (h : missingColumns cfg df ≠ []) :
    standardizeColumns cfg df = .error (missingColumns cfg df) ∧
    (∀ c, c ∈ missingColumns cfg df ↔
      (c ∈ requiredList cfg.required_columns ∧
        (cfg.column_mapping.lookup c = none ∨
          ∀ src, cfg.column_mapping.lookup c = some src → src ∉ df.cols))) := by
  constructor
  · unfold standardizeColumns
    simp [h]
  · intro c
    unfold missingColumns
    rw [List.mem_filter]
    constructor
    · rintro ⟨hmem, hcond⟩
      refine ⟨hmem, ?_⟩
      cases hl : cfg.column_mapping.lookup c with
      | none => exact Or.inl rfl
      | some src =>
        right
        intro s hs
        simp only [hl] at hcond
        cases hs
        simpa using hcond
    · rintro ⟨hmem, hcond⟩
      refine ⟨hmem, ?_⟩
      cases hl : cfg.column_mapping.lookup c with
      | none => simp [hl]
      | some src =>
        rcases hcond with hnone | habs
        · rw [hl] at hnone
          exact Option.noConfusion hnone
        · simp only [hl]
          simpa using habs src hl

theorem C4_schema_mismatch_complete_witness :
    standardizeColumns exampleConfig chromOnlyDf =
        .error (missingColumns exampleConfig chromOnlyDf) ∧
    (∀ c, c ∈ missingColumns exampleConfig chromOnlyDf ↔
      (c ∈ requiredList exampleConfig.required_columns ∧
        (exampleConfig.column_mapping.lookup c = none ∨
          ∀ src, exampleConfig.column_mapping.lookup c = some src →
            src ∉ chromOnlyDf.cols))) :=
  C4_schema_mismatch_complete exampleConfig chromOnlyDf (by decide)

/-- C2: contrary to the claim and to the docstring of _filter_data, a
None distance_threshold argument does not keep every row when the
descriptor configures a distance_threshold: on a one-row frame at
distance 200 with configured threshold 100, the filter stage drops the
row. -/
theorem C2_none_threshold_filters :
    filterData cfgThresh farRowDf none = .ok { cols := ["chr", "distance"], rows := [] } ∧
    farRowDf.rows ≠ [] := by
  exact ⟨rfl, by decide⟩

theorem all_mem_self (l : List String) : (l.all (fun c => c ∈ l)) = true := by
  simp [List.all_eq_true]

/-- C9 counterexample: with a descriptor whose output columns drop the
distance column, filter-and-project at threshold 1000 succeeds on a
one-row feature frame, but applying it again to its own output raises a
KeyError instead of returning the table unchanged. -/
theorem C9_idempotence_counterexample :
    filterData cfgDropDistance nearRowDf (some 1000) =
      .ok { cols := ["chr"], rows := [[("chr", Value.str "chr1")]] } ∧
    filterData cfgDropDistance { cols := ["chr"], rows := [[("chr", Value.str "chr1")]] }
        (some 1000) = .error "KeyError: distance" :=
  ⟨rfl, rfl⟩

/-- C9 amended: filter-and-project is idempotent on its own output
whenever the projected column set retains the distance column (as every
registry descriptor does) or no distance threshold is active; when a
threshold is active and the descriptor projects the distance column
away, the second application fails instead of being a no-op. -/
theorem C9_filter_idempotent (cfg : Config) (df df1 : DataFrame) (t : Option Int)
    (hok : filterData cfg df t = .ok df1)
    (hd : "distance" ∈ columnsToKeep cfg ∨ (t = none ∧ cfg.distance_threshold = none)) :
    filterData cfg df1 t = .ok df1 := by
  unfold filterData at hok ⊢
  cases t with
  | some tt =>
    have hkeep : "distance" ∈ columnsToKeep cfg := by
      rcases hd with hk | ⟨ht, _⟩
      · exact hk
      · exact Option.noConfusion ht
    dsimp only at hok ⊢
    by_cases hdc : "distance" ∈ df.cols
    · rw [if_pos hdc] at hok
      dsimp only at hok
      split at hok
      · cases hok
        dsimp only
        rw [if_pos (show "distance" ∈ (columnsToKeep cfg) from hkeep)]
        dsimp only
        have hfilt :
            ((df.rows.filter (distLe tt)).map (projectRow (columnsToKeep cfg))).filter
                (distLe tt) =
              (df.rows.filter (distLe tt)).map (projectRow (columnsToKeep cfg)) := by
          rw [List.filter_eq_self]
          intro r' hr'
          obtain ⟨r0, hr0, rfl⟩ := List.mem_map.mp hr'
          rw [distLe_projectRow hkeep]
          exact (List.mem_filter.mp hr0).2
        rw [hfilt]
        rw [if_pos (all_mem_self (columnsToKeep cfg))]
        have hproj :
            ((df.rows.filter (distLe tt)).map (projectRow (columnsToKeep cfg))).map
                (projectRow (columnsToKeep cfg)) =
              (df.rows.filter (distLe tt)).map (projectRow (columnsToKeep cfg)) := by
          rw [List.map_map]
          apply List.map_congr_left
          intro r0 _
          exact projectRow_idem (columnsToKeep cfg) r0
        rw [hproj]
      · exact Except.noConfusion hok
    · rw [if_neg hdc] at hok
      exact Except.noConfusion hok
  | none =>
    cases hdt : cfg.distance_threshold with
    | some tt =>
      have hkeep : "distance" ∈ columnsToKeep cfg := by
        rcases hd with hk | ⟨_, hdt2⟩
        · exact hk
        · rw [hdt] at hdt2
          exact Option.noConfusion hdt2
      rw [hdt] at hok
      simp only [hdt]
      dsimp only at hok ⊢
      by_cases hdc : "distance" ∈ df.cols
      · rw [if_pos hdc] at hok
        dsimp only at hok
        split at hok
        · cases hok
          dsimp only
          rw [if_pos (show "distance" ∈ (columnsToKeep cfg) from hkeep)]
          dsimp only
          have hfilt :
              ((df.rows.filter (distLe tt)).map (projectRow (columnsToKeep cfg))).filter
                  (distLe tt) =
                (df.rows.filter (distLe tt)).map (projectRow (columnsToKeep cfg)) := by
            rw [List.filter_eq_self]
            intro r' hr'
            obtain ⟨r0, hr0, rfl⟩ := List.mem_map.mp hr'
            rw [distLe_projectRow hkeep]
            exact (List.mem_filter.mp hr0).2
          rw [hfilt]
          rw [if_pos (all_mem_self (columnsToKeep cfg))]
          have hproj :
              ((df.rows.filter (distLe tt)).map (projectRow (columnsToKeep cfg))).map
                  (projectRow (columnsToKeep cfg)) =
                (df.rows.filter (distLe tt)).map (projectRow (columnsToKeep cfg)) := by
            rw [List.map_map]
            apply List.map_congr_left
            intro r0 _
            exact projectRow_idem (columnsToKeep cfg) r0
          rw [hproj]
        · exact Except.noConfusion hok
      · rw [if_neg hdc] at hok
        exact Except.noConfusion hok
    | none =>
      rw [hdt] at hok
      simp only [hdt]
      dsimp only at hok ⊢
      split at hok
      · cases hok
        dsimp only
        rw [if_pos (all_mem_self (columnsToKeep cfg))]
        have hproj :
            ((df.rows.map (projectRow (columnsToKeep cfg))).map
                (projectRow (columnsToKeep cfg))) =
              df.rows.map (projectRow (columnsToKeep cfg)) := by
          rw [List.map_map]
          apply List.map_congr_left
          intro r0 _
          exact projectRow_idem (columnsToKeep cfg) r0
        rw [hproj]
      · exact Except.noConfusion hok

theorem C9_filter_idempotent_witness :
    filterData cfgKeepDistance
        { cols := ["chr", "distance"],
          rows := [[("chr", Value.str "chr1"), ("distance", Value.int 5)]] }
        (some 1000) =
      .ok { cols := ["chr", "distance"],
            rows := [[("chr", Value.str "chr1"), ("distance", Value.int 5)]] } :=
  C9_filter_idempotent cfgKeepDistance nearRowDf
    { cols := ["chr", "distance"],
      rows := [[("chr", Value.str "chr1"), ("distance", Value.int 5)]] }
    (some 1000) rfl (Or.inl (by decide))

/-- C6: the label-distribution analysis succeeds and returns a
positive_negative_ratio of exactly 0 (a plain rational, no error and no
division by zero) when either label class is entirely absent, and the
ratio count(label=1) / count(label=0) when both classes are present. -/
theorem C6_pos_neg_ratio_policy (df : DataFrame) (h : "labels" ∈ df.cols) :
    ∃ d : Distribution, analyzeLabelDistribution df = .ok d ∧
      ((countLabel df (.int 0) = 0 ∨ countLabel df (.int 1) = 0) →
        d.positive_negative_ratio = 0) ∧
      (0 < countLabel df (.int 0) → 0 < countLabel df (.int 1) →
        d.positive_negative_ratio =
          (countLabel df (.int 1) : ℚ) / (countLabel df (.int 0) : ℚ)) := by
  have hok : analyzeLabelDistribution df = .ok
      { total_samples := df.rows.length,
        label_counts := fun v => countLabel df v,
        label_percentages := fun v =>
          ((countLabel df v : ℚ) /
            ((df.rows.countP (fun r => ¬ (getCell r "labels").isNa)) : ℚ)) * 100,
        positive_negative_ratio :=
          if 0 < countLabel df (.int 0) ∧ 0 < countLabel df (.int 1) then
            (countLabel df (.int 1) : ℚ) / (countLabel df (.int 0) : ℚ)
          else 0 } := by
    unfold analyzeLabelDistribution
    rw [if_neg (not_not_intro h)]
  refine ⟨_, hok, ?_, ?_⟩
  · intro hz
    dsimp only
    rw [if_neg]
    rintro ⟨h0, h1⟩
    rcases hz with hz | hz
    · rw [hz] at h0
      exact lt_irrefl 0 h0
    · rw [hz] at h1
      exact lt_irrefl 0 h1
  · intro h0 h1
    dsimp only
    rw [if_pos ⟨h0, h1⟩]

theorem C6_pos_neg_ratio_policy_witness :
    ∃ d : Distribution, analyzeLabelDistribution onlyPosDf = .ok d ∧
      ((countLabel onlyPosDf (.int 0) = 0 ∨ countLabel onlyPosDf (.int 1) = 0) →
        d.positive_negative_ratio = 0) ∧
      (0 < countLabel onlyPosDf (.int 0) → 0 < countLabel onlyPosDf (.int 1) →
        d.positive_negative_ratio =
          (countLabel onlyPosDf (.int 1) : ℚ) / (countLabel onlyPosDf (.int 0) : ℚ)) :=
  C6_pos_neg_ratio_policy onlyPosDf (by decide)

/-- C7: the AUROC/AUPRC input is exactly the rows whose score and label
cells are both present (pairwise-complete exclusion), while the
label-distribution statistics range over the full table: total_samples
is the full row count, the per-label counts count over all rows with no
condition on the score, and blanking every score cell to missing leaves
the per-label counts unchanged. -/
theorem C7_metric_scope (df : DataFrame) (sc : String)
    (h1 : sc ∈ df.cols) (h2 : "labels" ∈ df.cols) (h3 : sc ≠ "labels") :
    calculateMetrics df sc =
      .ok ((df.rows.filter
            (fun r => ¬ (getCell r sc).isNa ∧ ¬ (getCell r "labels").isNa)).map
        (fun r => (getCell r sc, getCell r "labels"))) ∧
    (∃ d : Distribution, analyzeLabelDistribution df = .ok d ∧
      d.total_samples = df.rows.length ∧
      (∀ v, d.label_counts v = df.rows.countP (fun r => pyEq (getCell r "labels") v))) ∧
    (∀ v, countLabel
        { cols := df.cols, rows := df.rows.map (fun r => setCell r sc Value.na) } v =
          countLabel df v) := by
  have hok : analyzeLabelDistribution df = .ok
      { total_samples := df.rows.length,
        label_counts := fun v => countLabel df v,
        label_percentages := fun v =>
          ((countLabel df v : ℚ) /
            ((df.rows.countP (fun r => ¬ (getCell r "labels").isNa)) : ℚ)) * 100,
        positive_negative_ratio :=
          if 0 < countLabel df (.int 0) ∧ 0 < countLabel df (.int 1) then
            (countLabel df (.int 1) : ℚ) / (countLabel df (.int 0) : ℚ)
          else 0 } := by
    unfold analyzeLabelDistribution
    rw [if_neg (not_not_intro h2)]
  refine ⟨?_, ⟨_, hok, rfl, fun v => rfl⟩, ?_⟩
  · unfold calculateMetrics
    rw [if_neg (not_not_intro h1), if_neg (not_not_intro h2)]
    rfl
  · intro v
    unfold countLabel
    dsimp only
    rw [List.countP_map]
    apply List.countP_congr
    intro r _
    simp only [Function.comp]
    rw [getCell_setCell_of_ne r h3]

theorem C7_metric_scope_witness :
    calculateMetrics scoredDf "ABC Score" =
      .ok ((scoredDf.rows.filter
            (fun r => ¬ (getCell r "ABC Score").isNa ∧ ¬ (getCell r "labels").isNa)).map
        (fun r => (getCell r "ABC Score", getCell r "labels"))) ∧
    (∃ d : Distribution, analyzeLabelDistribution scoredDf = .ok d ∧
      d.total_samples = scoredDf.rows.length ∧
      (∀ v, d.label_counts v =
        scoredDf.rows.countP (fun r => pyEq (getCell r "labels") v))) ∧
    (∀ v, countLabel
        { cols := scoredDf.cols,
          rows := scoredDf.rows.map (fun r => setCell r "ABC Score" Value.na) } v =
          countLabel scoredDf v) :=
  C7_metric_scope scoredDf "ABC Score" (by decide) (by decide) (by decide)

/-- C5: for a (task, dataset) pair present in the registry, resolution
returns the task-level descriptor overlaid with the dataset-level
descriptor through the deterministic dict merge: on a key collision the
dataset-level value replaces the task-level value as a whole (the
looked-up result is exactly the dataset-level value, with no merging of
nested structures or concatenation of lists), and a key bound only at
task level keeps the task-level value. -/
theorem C5_resolve_merge (t d : String) (entries tc dc : CDict)
    (ht : DATASET_CONFIG.lookup t = some (.dict entries))
    (htc : entries.lookup "task_config" = some (.dict tc))
    (hd : entries.lookup d = some (.dict dc)) :
    get_dataset_config t (some d) = .ok (dictMerge tc dc) ∧
    (∀ k v, List.lookup k dc = some v → List.lookup k (dictMerge tc dc) = some v) ∧
    (∀ k, List.lookup k dc = none →
      List.lookup k (dictMerge tc dc) = List.lookup k tc) := by
  refine ⟨?_, ?_, ?_⟩
  · unfold get_dataset_config
    simp only [ht, hd, htc]
  · intro k v hkv
    rw [dictMerge_lookup]
    cases htc2 : List.lookup k tc with
    | none => simpa using hkv
    | some w => simp [hkv]
  · intro k hk
    rw [dictMerge_lookup]
    cases htc2 : List.lookup k tc with
    | none => simpa using hk
    | some w => simp [hk]

theorem C5_resolve_merge_witness :
    get_dataset_config "enhancer" (some "Merged") =
      .ok (dictMerge enhancerTaskConfig mergedConfig) ∧
    (∀ k v, List.lookup k mergedConfig = some v →
      List.lookup k (dictMerge enhancerTaskConfig mergedConfig) = some v) ∧
    (∀ k, List.lookup k mergedConfig = none →
      List.lookup k (dictMerge enhancerTaskConfig mergedConfig) =
        List.lookup k enhancerTaskConfig) :=
  C5_resolve_merge "enhancer" "Merged" enhancerSection enhancerTaskConfig mergedConfig
    rfl rfl rfl

/-- C8 counterexample: resolving the unknown pair (enhancer,
unknown_dataset) does fail, but the construction trace of BaseDataset
already contains the cache-directory creation, a filesystem side
effect performed before configuration resolution, so the failure does
not precede all I/O. -/
theorem C8_io_before_config_error :
    get_dataset_config "enhancer" (some "unknown_dataset") =
      .error "Unknown dataset name: unknown_dataset" ∧
    (baseDatasetInitTrace "enhancer" "unknown_dataset").1 = [Event.mkdir "cache_dir"] ∧
    [Event.mkdir "cache_dir"] ≠ ([] : List Event) :=
  ⟨rfl, rfl, by decide⟩

/-- C8 amended: for a task or dataset name that fails configuration
resolution, BaseDataset construction fails and its trace contains no
fetch event (the fetch-call counter is zero); the cache-directory
creation, however, happens before the configuration lookup. -/
theorem C8_unknown_config_no_fetch (t d : String)
    (herr : ∃ e, get_dataset_config t (some d) = .error e) :
    (∃ e, (baseDatasetInitTrace t d).2 = .error e) ∧
    (∀ u, Event.fetch u ∉ (baseDatasetInitTrace t d).1) := by
  obtain ⟨e, he⟩ := herr
  unfold baseDatasetInitTrace
  rw [he]
  refine ⟨⟨e, rfl⟩, ?_⟩
  intro u hu
  simp at hu

theorem C8_unknown_config_no_fetch_witness :
    (∃ e, (baseDatasetInitTrace "enhancer" "unknown_dataset").2 = .error e) ∧
    (∀ u, Event.fetch u ∉ (baseDatasetInitTrace "enhancer" "unknown_dataset").1) :=
  C8_unknown_config_no_fetch "enhancer" "unknown_dataset" ⟨_, rfl⟩

end GenomicsBenchmark
